import Mathlib

/-!
Shallow embedding of the x402 payment-handling core of the dexfra-agent
repository (packages/core/src/tools/fetch.ts, types/dexfra.ts, constants.ts).

Network responses, JSON-parse outcomes, the clock and callback behaviours are
supplied through an explicit environment; the orchestrator is a pure function
from configuration and environment to a result together with a trace of
observable events (network calls, callback invocations, proof construction,
signing attempts).
-/

unseal Rat.mul Rat.add Rat.sub

namespace Dexfra

/-- constants.ts : USDC token decimals. -/
def USDC_DECIMALS : Nat := 6

/-- Floor of a rational, computably: floor division of the numerator by the
denominator. -/
def qfloor (q : ℚ) : ℤ :=
  Int.fdiv q.num (q.den : ℤ)

/-- Rounding of a rational to the nearest integer with ties to the even
integer, as IEEE754 round-to-nearest-even behaves at integer scale. -/
def roundHalfEven (q : ℚ) : ℤ :=
  let d : ℤ := (q.den : ℤ)
  let f := Int.fdiv q.num d
  let r := q.num - f * d
  if 2 * r < d then f
  else if 2 * r > d then f + 1
  else if f % 2 = 0 then f else f + 1

/-- Fuel-driven binary logarithm on naturals. -/
def natLog2fuel : Nat → Nat → Nat
  | 0, _ => 0
  | fuel + 1, n => if 2 ≤ n then natLog2fuel fuel (n / 2) + 1 else 0

/-- Binary logarithm, rounded down, of a natural number. -/
def natLog2 (n : Nat) : Nat :=
  natLog2fuel n n

/-- The rational power of two with integer exponent. -/
def qPow2 (g : ℤ) : ℚ :=
  if 0 ≤ g then ((2 ^ g.toNat : ℕ) : ℚ) else mkRat 1 (2 ^ (-g).toNat)

/-- Binary logarithm, rounded down, of a positive rational. -/
def floorLog2Q (q : ℚ) : ℤ :=
  let g : ℤ := (natLog2 q.num.natAbs : ℤ) - (natLog2 q.den : ℤ)
  if qPow2 g ≤ q then g else g - 1

/-- Rounding of an exact rational to the nearest IEEE754 binary64 value:
53-bit significand, round to nearest with ties to even, subnormal below
2^(-1022) (unit in the last place clamped at 2^(-1074)), overflow ignored.
This is the value a JS number arithmetic operation produces. -/
def fl64 (q : ℚ) : ℚ :=
  if q = 0 then 0
  else
    let a := if q < 0 then -q else q
    let s := max (floorLog2Q a - 52) (-1074)
    (roundHalfEven (q * qPow2 (-s)) : ℚ) * qPow2 s

/-- fetch.ts parseUSDCAmount : converts a human-unit amount to base units via
BigInt(Math.floor(amount * 10^USDC_DECIMALS)). The JS number amount is
modelled as its exact rational value; the multiplication rounds the product to
binary64 (Math.pow(10, 6) = 10^6 itself is exact), while Math.floor and the
BigInt conversion are exact. -/
def parseUSDCAmount (amount : ℚ) : ℤ :=
  qfloor (fl64 (amount * (10 : ℚ) ^ USDC_DECIMALS))

/-- types/dexfra.ts : the scheme field of X402PaymentRequirement. -/
inductive Scheme where
  | exact
  | upto
  deriving DecidableEq

/-- types/dexfra.ts X402PaymentRequirement. The decimal-string encoded
unsigned big integer maxAmountRequired is modelled as a natural number. -/
structure X402PaymentRequirement where
  scheme : Scheme
  network : String
  recipient : String
  maxAmountRequired : Nat
  token : Option String
  deriving DecidableEq

/-- types/dexfra.ts X402SettlementResponse. -/
structure X402SettlementResponse where
  transactionId : String
  network : String
  amount : String
  timestamp : Nat
  deriving DecidableEq

/-- The JSON body of a 402 response as the code observes it: either field may
be absent (undefined in JS). -/
structure Body402 where
  x402Version : Option Nat
  accepts : Option (List X402PaymentRequirement)
  deriving DecidableEq

/-- Behaviour of a configured callback: absent, returning normally, or
throwing an exception with the given message. -/
inductive CbBehavior where
  | absent
  | returns
  | throws (msg : String)
  deriving DecidableEq

/-- types/dexfra.ts DexfraFetchConfig (wallet and connection are opaque to the
payment flow as implemented; callbacks are modelled by their behaviour). -/
structure DexfraFetchConfig where
  network : String
  maxAmount : Option ℚ
  onPaymentRequired : CbBehavior
  onPaymentSuccess : CbBehavior
  onPaymentError : CbBehavior
  deriving DecidableEq

/-- Environment of one dexfraFetch call: initial response status, outcome of
response.json() on the 402 body, the clock, the paid-retry status, and the
x-payment-response header (absent, present but undecodable, or decoding to a
settlement record). -/
structure FetchEnv where
  initialStatus : Nat
  bodyParse : Except String Body402
  now : Nat
  retryStatus : Nat
  settlementHeader : Option (Except Unit X402SettlementResponse)

/-- types/dexfra.ts error hierarchy: DexfraError with its two subclasses used
by fetch.ts. -/
inductive DexfraError where
  | generic (message : String) (code : String)
  | paymentRequired (message : String) (amount : Nat) (requirements : List X402PaymentRequirement)
  | maxAmountExceeded (message : String) (required : String) (max : String)
  deriving DecidableEq

/-- A JS exception: either a DexfraError instance or some other error carrying
a message. -/
inductive JsError where
  | dexfra (e : DexfraError)
  | other (msg : String)
  deriving DecidableEq

/-- fetch.ts createPaymentHeader : the canonical payment record assembled from
the challenge version and the selected requirement. -/
structure PaymentData where
  version : Nat
  network : String
  recipient : String
  amount : Nat
  token : Option String
  scheme : Scheme
  timestamp : Nat
  deriving DecidableEq

/-- Observable events of one call, in order of occurrence. -/
inductive Event where
  | fetchCall
  | cbRequired (amount : Nat)
  | cbSuccess (txId : String)
  | cbError (e : DexfraError)
  | buildHeader (d : PaymentData)
  | signAttempt (d : PaymentData)
  deriving DecidableEq

/-- Result of a dexfraFetch call: the initial response returned verbatim, the
paid-retry response, or a thrown error. -/
inductive FetchResult where
  | initial (status : Nat)
  | paid (status : Nat)
  | failure (e : JsError)
  deriving DecidableEq

/-- Assembly of the payment record (fetch.ts lines 40-48). -/
def mkPaymentData (x402Version : Nat) (req : X402PaymentRequirement) (now : Nat) : PaymentData :=
  ⟨x402Version, req.network, req.recipient, req.maxAmountRequired, req.token, req.scheme, now⟩

/-- Hexadecimal digit, lower case. -/
def hexDigit (n : Nat) : Char :=
  if n < 10 then Char.ofNat (48 + n) else Char.ofNat (87 + n)

/-- JSON.stringify escaping of a single character. -/
def jsonEscapeChar (c : Char) : String :=
  if c = '"' then "\\\""
  else if c = '\\' then "\\\\"
  else if c = '\n' then "\\n"
  else if c = '\r' then "\\r"
  else if c = '\t' then "\\t"
  else if c.toNat = 8 then "\\b"
  else if c.toNat = 12 then "\\f"
  else if c.toNat < 32 then
    "\\u00" ++ String.singleton (hexDigit (c.toNat / 16)) ++ String.singleton (hexDigit (c.toNat % 16))
  else String.singleton c

/-- JSON.stringify escaping of a string body. -/
def jsonEscape (s : String) : String :=
  String.join (s.data.map jsonEscapeChar)

/-- A JSON string literal. -/
def jsonString (s : String) : String :=
  "\"" ++ jsonEscape s ++ "\""

/-- Rendering of the scheme enum. -/
def schemeString : Scheme → String
  | Scheme.exact => "exact"
  | Scheme.upto => "upto"

/-- JSON.stringify of the payment record, keys in insertion order; an absent
token field is omitted, as JSON.stringify omits undefined properties. -/
def paymentDataJson (d : PaymentData) : String :=
  "\x7b\"version\":" ++ toString d.version
    ++ ",\"network\":" ++ jsonString d.network
    ++ ",\"recipient\":" ++ jsonString d.recipient
    ++ ",\"amount\":" ++ jsonString (toString d.amount)
    ++ (match d.token with
        | none => ""
        | some t => ",\"token\":" ++ jsonString t)
    ++ ",\"scheme\":" ++ jsonString (schemeString d.scheme)
    ++ ",\"timestamp\":" ++ toString d.timestamp ++ "\x7d"

/-- UTF-8 encoding of one character (Buffer.from over a JS string is UTF-8). -/
def utf8Bytes (c : Char) : List Nat :=
  let n := c.toNat
  if n < 128 then [n]
  else if n < 2048 then [192 + n / 64, 128 + n % 64]
  else if n < 65536 then [224 + n / 4096, 128 + n / 64 % 64, 128 + n % 64]
  else [240 + n / 262144, 128 + n / 4096 % 64, 128 + n / 64 % 64, 128 + n % 64]

/-- UTF-8 bytes of a string. -/
def stringUTF8 (s : String) : List Nat :=
  s.data.flatMap utf8Bytes

/-- Character of the standard base64 alphabet. -/
def base64Char (n : Nat) : Char :=
  if n < 26 then Char.ofNat (65 + n)
  else if n < 52 then Char.ofNat (97 + (n - 26))
  else if n < 62 then Char.ofNat (48 + (n - 52))
  else if n = 62 then '+'
  else '/'

/-- Standard base64 with padding over a byte list (Buffer.toString base64). -/
def base64Encode : List Nat → String
  | [] => ""
  | [a] =>
    String.mk [base64Char (a / 4), base64Char (a % 4 * 16), '=', '=']
  | [a, b] =>
    String.mk [base64Char (a / 4), base64Char (a % 4 * 16 + b / 16), base64Char (b % 16 * 4), '=']
  | a :: b :: c :: rest =>
    String.mk [base64Char (a / 4), base64Char (a % 4 * 16 + b / 16),
      base64Char (b % 16 * 4 + c / 64), base64Char (c % 64)]
      ++ base64Encode rest

/-- The transport encoding of the payment record used by createPaymentHeader:
base64 over the UTF-8 bytes of its JSON rendering. -/
def encodePaymentData (d : PaymentData) : String :=
  base64Encode (stringUTF8 (paymentDataJson d))

/-- fetch.ts createPaymentHeader (lines 31-68): assembles the record and
base64-encodes its JSON rendering. The wallet parameter is unused by the
source: no signing call occurs, so no signAttempt event is ever emitted; the
catch-wrap to PAYMENT_CREATION_FAILED guards a body that cannot throw. -/
def createPaymentHeader (x402Version : Nat) (req : X402PaymentRequirement) (now : Nat) :
    Except DexfraError String × List Event :=
  (Except.ok (encodePaymentData (mkPaymentData x402Version req now)),
   [Event.buildHeader (mkPaymentData x402Version req now)])

/-- String.prototype.toLowerCase, modelled as per-character lowercasing. -/
def toLowerStr (s : String) : String :=
  String.mk (s.data.map Char.toLower)

/-- fetch.ts selectPaymentRequirement (lines 73-88): first case-insensitive
network match, else the head of the list; none models the undefined value
requirements[0] yields on an empty list. -/
def selectPaymentRequirement (requirements : List X402PaymentRequirement)
    (preferredNetwork : String) : Option X402PaymentRequirement :=
  match requirements.find? (fun req => toLowerStr req.network == toLowerStr preferredNetwork) with
  | some req => some req
  | none => requirements.head?

/-- fetch.ts parseSettlementResponse (lines 93-105): null on an absent header;
a decode/parse throw is caught, logged and yields null; otherwise the record. -/
def parseSettlementResponse :
    Option (Except Unit X402SettlementResponse) → Option X402SettlementResponse
  | none => none
  | some (Except.error _) => none
  | some (Except.ok s) => some s

/-- Invoking an optional callback: the events it contributes (one invocation
when present) and the message of the exception it throws, if it throws. -/
def callCb (b : CbBehavior) (ev : Event) : List Event × Option String :=
  match b with
  | CbBehavior.absent => ([], none)
  | CbBehavior.returns => ([ev], none)
  | CbBehavior.throws msg => ([ev], some msg)

/-- fetch.ts lines 153-168: the ceiling guard. Produces the
MaxAmountExceededError exactly when a ceiling is configured and the selected
requirement exceeds it. -/
def guardCheck (cfg : DexfraFetchConfig) (req : X402PaymentRequirement) : Option DexfraError :=
  match cfg.maxAmount with
  | none => none
  | some c =>
    if (req.maxAmountRequired : ℤ) > parseUSDCAmount c then
      some (DexfraError.maxAmountExceeded
        ("Payment amount " ++ toString req.maxAmountRequired
          ++ " exceeds max amount " ++ toString (parseUSDCAmount c))
        (toString req.maxAmountRequired) (toString (parseUSDCAmount c)))
    else none

/-- Response.ok of the fetch API: status in the range 200-299. -/
def responseOk (status : Nat) : Bool :=
  decide (200 ≤ status ∧ status ≤ 299)

/-- The InvalidChallenge error of fetch.ts lines 136-140. -/
def invalid402Error : DexfraError :=
  DexfraError.generic "Invalid 402 Payment Required response" "INVALID_402_RESPONSE"

/-- fetch.ts lines 170-205: the tail of the 402 handler after the guard has
passed, from the onPaymentRequired notification to the settlement parse. -/
def afterGuard (cfg : DexfraFetchConfig) (env : FetchEnv) (x402Version : Nat)
    (requirements : List X402PaymentRequirement) (req : X402PaymentRequirement) :
    Except JsError Nat × List Event :=
  match callCb cfg.onPaymentRequired (Event.cbRequired req.maxAmountRequired) with
  | (evR, some msg) => (Except.error (JsError.other msg), evR)
  | (evR, none) =>
    match createPaymentHeader x402Version req env.now with
    | (Except.error e, evB) => (Except.error (JsError.dexfra e), evR ++ evB)
    | (Except.ok _header, evB) =>
      if !responseOk env.retryStatus && env.retryStatus == 402 then
        (Except.error (JsError.dexfra (DexfraError.paymentRequired
            "Payment was not accepted" req.maxAmountRequired requirements)),
         evR ++ evB ++ [Event.fetchCall])
      else
        match parseSettlementResponse env.settlementHeader with
        | some s =>
          match callCb cfg.onPaymentSuccess (Event.cbSuccess s.transactionId) with
          | (evS, some msg) =>
            (Except.error (JsError.other msg), evR ++ evB ++ [Event.fetchCall] ++ evS)
          | (evS, none) =>
            (Except.ok env.retryStatus, evR ++ evB ++ [Event.fetchCall] ++ evS)
        | none => (Except.ok env.retryStatus, evR ++ evB ++ [Event.fetchCall])

/-- fetch.ts lines 125-205: the body of the try block of the 402 branch.
An Except.error of JsError.other models a non-DexfraError JS exception. -/
def try402 (cfg : DexfraFetchConfig) (env : FetchEnv) : Except JsError Nat × List Event :=
  match env.bodyParse with
  | Except.error msg => (Except.error (JsError.other msg), [])
  | Except.ok body =>
    match body.x402Version, body.accepts with
    | some v, some accepts =>
      if v == 0 || accepts.isEmpty then
        (Except.error (JsError.dexfra invalid402Error), [])
      else
        match selectPaymentRequirement accepts cfg.network with
        | none => (Except.error (JsError.other "Cannot read properties of undefined"), [])
        | some req =>
          match guardCheck cfg req with
          | some e =>
            match callCb cfg.onPaymentError (Event.cbError e) with
            | (evE, some msg) => (Except.error (JsError.other msg), evE)
            | (evE, none) => (Except.error (JsError.dexfra e), evE)
          | none => afterGuard cfg env v accepts req
    | _, _ => (Except.error (JsError.dexfra invalid402Error), [])

/-- fetch.ts dexfraFetch (lines 110-226): the initial call, the 402 branch
wrapped in try-catch (a DexfraError is rethrown unwrapped, any other exception
is wrapped as PAYMENT_PROCESSING_FAILED with onPaymentError invoked), and the
verbatim return of a non-402 initial response. -/
def dexfraFetch (cfg : DexfraFetchConfig) (env : FetchEnv) : FetchResult × List Event :=
  if env.initialStatus == 402 then
    match try402 cfg env with
    | (Except.ok st, evs) => (FetchResult.paid st, Event.fetchCall :: evs)
    | (Except.error (JsError.dexfra e), evs) =>
      (FetchResult.failure (JsError.dexfra e), Event.fetchCall :: evs)
    | (Except.error (JsError.other msg), evs) =>
      let wrapped := DexfraError.generic ("Payment processing failed: " ++ msg)
        "PAYMENT_PROCESSING_FAILED"
      match callCb cfg.onPaymentError (Event.cbError wrapped) with
      | (evE, some msg2) =>
        (FetchResult.failure (JsError.other msg2), Event.fetchCall :: (evs ++ evE))
      | (evE, none) =>
        (FetchResult.failure (JsError.dexfra wrapped), Event.fetchCall :: (evs ++ evE))
  else (FetchResult.initial env.initialStatus, [Event.fetchCall])

/-- Number of network round-trips recorded in a trace. -/
def countFetch (evs : List Event) : Nat :=
  evs.countP (fun e => match e with | Event.fetchCall => true | _ => false)

/-- Number of onPaymentError invocations recorded in a trace. -/
def countErrorCb (evs : List Event) : Nat :=
  evs.countP (fun e => match e with | Event.cbError _ => true | _ => false)

/-- Number of onPaymentSuccess invocations recorded in a trace. -/
def countSuccessCb (evs : List Event) : Nat :=
  evs.countP (fun e => match e with | Event.cbSuccess _ => true | _ => false)

/-- The requirement the 402 handler selects in a given environment, when the
challenge body is well-formed. -/
def selectedOffer (cfg : DexfraFetchConfig) (env : FetchEnv) : Option X402PaymentRequirement :=
  match env.bodyParse with
  | Except.error _ => none
  | Except.ok body =>
    match body.x402Version, body.accepts with
    | some v, some accepts =>
      if v == 0 || accepts.isEmpty then none
      else selectPaymentRequirement accepts cfg.network
    | _, _ => none

/-- The accepts list of the challenge body, empty when unavailable. -/
def challengeAccepts (env : FetchEnv) : List X402PaymentRequirement :=
  match env.bodyParse with
  | Except.error _ => []
  | Except.ok body =>
    match body.accepts with
    | some accepts => accepts
    | none => []

/-- Whether a callback behaviour is a throwing one. -/
def throwsCb : CbBehavior → Bool
  | CbBehavior.throws _ => true
  | _ => false

/-- How many onPaymentError invocations the catch-rethrow logic of fetch.ts
actually performs for a propagated error (with a provided, non-throwing
callback): one for the ceiling error and for wrapped foreign errors, zero for
every other DexfraError, which the catch block rethrows without notifying. -/
def actualErrCbCount : DexfraError → Nat
  | DexfraError.maxAmountExceeded _ _ _ => 1
  | DexfraError.generic _ code => if code == "PAYMENT_PROCESSING_FAILED" then 1 else 0
  | DexfraError.paymentRequired _ _ _ => 0

/-- The onPaymentError bookkeeping a call outcome exhibits: the trace carries
exactly actualErrCbCount e invocations when a DexfraError e propagates, the
propagated one among them, and none otherwise; no foreign error escapes. -/
def errCbBookkeeping : FetchResult × List Event → Prop
  | (FetchResult.failure (JsError.dexfra e), trace) =>
    countErrorCb trace = actualErrCbCount e ∧
      (actualErrCbCount e = 1 → Event.cbError e ∈ trace)
  | (FetchResult.failure (JsError.other _), _) => False
  | (_, trace) => countErrorCb trace = 0

/-- Number of proof constructions recorded in a trace. -/
def countBuild (evs : List Event) : Nat :=
  evs.countP (fun e => match e with | Event.buildHeader _ => true | _ => false)

/-- Number of signing attempts recorded in a trace. -/
def countSign (evs : List Event) : Nat :=
  evs.countP (fun e => match e with | Event.signAttempt _ => true | _ => false)

/-- Fixture: an offer on network A. -/
def reqNetA : X402PaymentRequirement := ⟨Scheme.exact, "A", "recipA", 10, none⟩

/-- Fixture: an offer on network B. -/
def reqNetB : X402PaymentRequirement := ⟨Scheme.upto, "B", "recipB", 20, none⟩

/-- Fixture: a solana offer demanding 2000000 base units. -/
def req2M : X402PaymentRequirement := ⟨Scheme.exact, "solana", "recip", 2000000, none⟩

/-- Fixture: a solana offer demanding 1000 base units. -/
def reqSmall : X402PaymentRequirement := ⟨Scheme.exact, "solana", "recip", 1000, none⟩

/-- Fixture: an upto-scheme solana offer demanding 500 base units. -/
def reqUpto : X402PaymentRequirement := ⟨Scheme.upto, "solana", "recip", 500, none⟩

/-- Fixture: the ceiling error produced for req2M under a ceiling of 1.0. -/
def e2M : DexfraError :=
  DexfraError.maxAmountExceeded
    "Payment amount 2000000 exceeds max amount 1000000" "2000000" "1000000"

/-- Fixture: ceiling 1.0, all callbacks provided and well behaved. -/
def cfgCeil1 : DexfraFetchConfig :=
  ⟨"solana", some 1, CbBehavior.returns, CbBehavior.returns, CbBehavior.returns⟩

/-- Fixture: ceiling 1.0, onPaymentError throws. -/
def cfgCeil1ThrowErr : DexfraFetchConfig :=
  ⟨"solana", some 1, CbBehavior.returns, CbBehavior.returns, CbBehavior.throws "cb boom"⟩

/-- Fixture: ceiling 1.0, onPaymentRequired throws. -/
def cfgThrowReq : DexfraFetchConfig :=
  ⟨"solana", some 1, CbBehavior.throws "boom", CbBehavior.returns, CbBehavior.returns⟩

/-- Fixture: no ceiling configured, all callbacks provided and well behaved. -/
def cfgNoCeil : DexfraFetchConfig :=
  ⟨"solana", none, CbBehavior.returns, CbBehavior.returns, CbBehavior.returns⟩

/-- Fixture: 402 challenge offering req2M, retry would succeed. -/
def env2M : FetchEnv := ⟨402, Except.ok ⟨some 1, some [req2M]⟩, 0, 200, none⟩

/-- Fixture: 402 challenge offering reqSmall, successful retry, no settlement. -/
def envSmallRetryOk : FetchEnv := ⟨402, Except.ok ⟨some 1, some [reqSmall]⟩, 77, 200, none⟩

/-- Fixture: 402 challenge offering reqSmall, the paid retry returns 402 again. -/
def envSmallRetry402 : FetchEnv := ⟨402, Except.ok ⟨some 1, some [reqSmall]⟩, 77, 402, none⟩

/-- Fixture: 402 response whose body lacks x402Version. -/
def envNoVersion : FetchEnv := ⟨402, Except.ok ⟨none, some [reqSmall]⟩, 0, 200, none⟩

/-- Fixture: 402 response whose accepts list is empty. -/
def envEmptyAccepts : FetchEnv := ⟨402, Except.ok ⟨some 1, some []⟩, 0, 200, none⟩

/-- Fixture: 402 challenge offering reqUpto, retry carries a valid settlement. -/
def envUpto : FetchEnv :=
  ⟨402, Except.ok ⟨some 1, some [reqUpto]⟩, 5, 200, some (Except.ok ⟨"tx9", "solana", "500", 6⟩)⟩

/-- Fixture: successful retry carrying an undecodable settlement header. -/
def envBadSettle : FetchEnv :=
  ⟨402, Except.ok ⟨some 1, some [reqSmall]⟩, 0, 200, some (Except.error ())⟩

/-- Fixture: the binary64 double nearest to 0.000249 human units. -/
def ceil249 : ℚ := fl64 (mkRat 249 (10 ^ 6))

end Dexfra

namespace Dexfra

theorem qfloor_intCast (n : ℤ) : qfloor ((n : ℤ) : ℚ) = n := by
  unfold qfloor
  rw [Rat.num_intCast, Rat.den_intCast]
  exact Int.fdiv_one n

theorem parseUSDC_one : parseUSDCAmount 1 = 1000000 := by decide

theorem afterGuard_fetch_le (cfg : DexfraFetchConfig) (env : FetchEnv) (v : Nat)
    (a : List X402PaymentRequirement) (req : X402PaymentRequirement) :
    countFetch (afterGuard cfg env v a req).2 ≤ 1 := by
  unfold afterGuard createPaymentHeader callCb
  cases hR : cfg.onPaymentRequired <;> cases hS : cfg.onPaymentSuccess <;>
    simp only [] <;>
    (try split) <;>
    (try split) <;>
    simp_all [countFetch, List.countP_cons, List.countP_append]

theorem afterGuard_fetch_count (cfg : DexfraFetchConfig) (env : FetchEnv) (v : Nat)
    (a : List X402PaymentRequirement) (req : X402PaymentRequirement) :
    countFetch (afterGuard cfg env v a req).2
      = if throwsCb cfg.onPaymentRequired then 0 else 1 := by
  unfold afterGuard createPaymentHeader callCb
  cases hR : cfg.onPaymentRequired <;> cases hS : cfg.onPaymentSuccess <;>
    simp only [throwsCb] <;>
    (try split) <;>
    (try split) <;>
    simp_all [countFetch, List.countP_cons, List.countP_append, throwsCb]

theorem afterGuard_errCb (cfg : DexfraFetchConfig) (env : FetchEnv) (v : Nat)
    (a : List X402PaymentRequirement) (req : X402PaymentRequirement) :
    countErrorCb (afterGuard cfg env v a req).2 = 0 := by
  unfold afterGuard createPaymentHeader callCb
  cases hR : cfg.onPaymentRequired <;> cases hS : cfg.onPaymentSuccess <;>
    simp only [] <;>
    (try split) <;>
    (try split) <;>
    simp_all [countErrorCb, List.countP_cons, List.countP_append]

theorem afterGuard_dexfra_err (cfg : DexfraFetchConfig) (env : FetchEnv) (v : Nat)
    (a : List X402PaymentRequirement) (req : X402PaymentRequirement) (e : DexfraError)
    (evs : List Event) (h : afterGuard cfg env v a req = (Except.error (JsError.dexfra e), evs)) :
    e = DexfraError.paymentRequired "Payment was not accepted" req.maxAmountRequired a := by
  unfold afterGuard createPaymentHeader callCb at h
  cases hR : cfg.onPaymentRequired <;> cases hS : cfg.onPaymentSuccess <;>
    simp_all only [] <;>
    (try split at h) <;>
    (try split at h) <;>
    simp_all

theorem afterGuard_build_mem (cfg : DexfraFetchConfig) (env : FetchEnv) (v : Nat)
    (a : List X402PaymentRequirement) (req : X402PaymentRequirement) (d : PaymentData)
    (h : Event.buildHeader d ∈ (afterGuard cfg env v a req).2) :
    d = mkPaymentData v req env.now := by
  unfold afterGuard createPaymentHeader callCb at h
  cases hR : cfg.onPaymentRequired <;> cases hS : cfg.onPaymentSuccess <;>
    simp_all only [] <;>
    (try split at h) <;>
    (try split at h) <;>
    simp_all

theorem afterGuard_no_sign (cfg : DexfraFetchConfig) (env : FetchEnv) (v : Nat)
    (a : List X402PaymentRequirement) (req : X402PaymentRequirement) (d : PaymentData) :
    Event.signAttempt d ∉ (afterGuard cfg env v a req).2 := by
  intro h
  unfold afterGuard createPaymentHeader callCb at h
  cases hR : cfg.onPaymentRequired <;> cases hS : cfg.onPaymentSuccess <;>
    simp_all only [] <;>
    (try split at h) <;>
    (try split at h) <;>
    simp_all

theorem afterGuard_success_mem (cfg : DexfraFetchConfig) (env : FetchEnv) (v : Nat)
    (a : List X402PaymentRequirement) (req : X402PaymentRequirement) (tx : String)
    (h : Event.cbSuccess tx ∈ (afterGuard cfg env v a req).2) :
    ∃ s, parseSettlementResponse env.settlementHeader = some s ∧ tx = s.transactionId := by
  unfold afterGuard createPaymentHeader callCb at h
  cases hR : cfg.onPaymentRequired <;> cases hS : cfg.onPaymentSuccess <;>
    simp_all only [] <;>
    (try split at h) <;>
    (try split at h) <;>
    simp_all

theorem afterGuard_retry402 (cfg : DexfraFetchConfig) (env : FetchEnv) (v : Nat)
    (a : List X402PaymentRequirement) (req : X402PaymentRequirement)
    (hr : env.retryStatus = 402) (hcb : throwsCb cfg.onPaymentRequired = false) :
    (afterGuard cfg env v a req).1 =
      Except.error (JsError.dexfra (DexfraError.paymentRequired
        "Payment was not accepted" req.maxAmountRequired a)) := by
  unfold afterGuard createPaymentHeader callCb
  have hcond : (!responseOk env.retryStatus && env.retryStatus == 402) = true := by
    rw [hr]; decide
  cases hR : cfg.onPaymentRequired <;>
    simp_all [throwsCb, hcond]

theorem guardCheck_shape (cfg : DexfraFetchConfig) (req : X402PaymentRequirement)
    (e : DexfraError) (h : guardCheck cfg req = some e) :
    ∃ c, cfg.maxAmount = some c ∧ (req.maxAmountRequired : ℤ) > parseUSDCAmount c ∧
      e = DexfraError.maxAmountExceeded
        ("Payment amount " ++ toString req.maxAmountRequired
          ++ " exceeds max amount " ++ toString (parseUSDCAmount c))
        (toString req.maxAmountRequired) (toString (parseUSDCAmount c)) := by
  unfold guardCheck at h
  cases hm : cfg.maxAmount with
  | none => rw [hm] at h; simp at h
  | some c =>
    rw [hm] at h
    simp only [] at h
    split at h
    · exact ⟨c, rfl, by assumption, by injection h with h1; exact h1.symm⟩
    · simp at h

theorem try402_eq_afterGuard (cfg : DexfraFetchConfig) (env : FetchEnv) (v : Nat)
    (accepts : List X402PaymentRequirement) (req : X402PaymentRequirement)
    (hbp : env.bodyParse = Except.ok ⟨some v, some accepts⟩)
    (hval : (v == 0 || accepts.isEmpty) = false)
    (hsel : selectPaymentRequirement accepts cfg.network = some req)
    (hguard : guardCheck cfg req = none) :
    try402 cfg env = afterGuard cfg env v accepts req := by
  unfold try402
  rw [hbp]
  simp only [hval, hsel, hguard, Bool.false_eq_true, if_false]

theorem try402_guardfail (cfg : DexfraFetchConfig) (env : FetchEnv) (v : Nat)
    (accepts : List X402PaymentRequirement) (req : X402PaymentRequirement) (e : DexfraError)
    (hbp : env.bodyParse = Except.ok ⟨some v, some accepts⟩)
    (hval : (v == 0 || accepts.isEmpty) = false)
    (hsel : selectPaymentRequirement accepts cfg.network = some req)
    (hg : guardCheck cfg req = some e) :
    try402 cfg env =
      (match callCb cfg.onPaymentError (Event.cbError e) with
        | (evE, some m) => (Except.error (JsError.other m), evE)
        | (evE, none) => (Except.error (JsError.dexfra e), evE)) := by
  unfold try402
  rw [hbp]
  simp only [hval, hsel, hg, Bool.false_eq_true, if_false]

theorem try402_invalid (cfg : DexfraFetchConfig) (env : FetchEnv) (body : Body402)
    (hbp : env.bodyParse = Except.ok body)
    (hbad : body.x402Version = none ∨ body.accepts = none ∨ body.accepts = some []) :
    try402 cfg env = (Except.error (JsError.dexfra invalid402Error), []) := by
  unfold try402
  rw [hbp]
  obtain ⟨ver, acc⟩ := body
  rcases hbad with h | h | h <;> simp only at h <;> subst h
  · rfl
  · cases ver <;> rfl
  · cases ver with
    | none => rfl
    | some v => simp

theorem try402_fetch_le (cfg : DexfraFetchConfig) (env : FetchEnv) :
    countFetch (try402 cfg env).2 ≤ 1 := by
  obtain ⟨st0, bp, now, rst, sh⟩ := env
  unfold try402
  cases bp with
  | error m => simp [countFetch]
  | ok body =>
    obtain ⟨ver, acc⟩ := body
    cases ver with
    | none => simp [countFetch]
    | some v =>
      cases acc with
      | none => simp [countFetch]
      | some accepts =>
        simp only []
        split
        · simp [countFetch]
        · cases hsel : selectPaymentRequirement accepts cfg.network with
          | none => simp [countFetch]
          | some req =>
            simp only [hsel]
            cases hg : guardCheck cfg req with
            | some e =>
              simp only [hg]
              cases hE : cfg.onPaymentError <;>
                simp [callCb, countFetch, List.countP_cons]
            | none =>
              simp only [hg]
              simpa using afterGuard_fetch_le cfg
                ⟨st0, Except.ok ⟨some v, some accepts⟩, now, rst, sh⟩ v accepts req

theorem try402_fetch1_inv (cfg : DexfraFetchConfig) (env : FetchEnv)
    (h : countFetch (try402 cfg env).2 = 1) :
    ∃ v accepts req, env.bodyParse = Except.ok ⟨some v, some accepts⟩ ∧
      (v == 0 || accepts.isEmpty) = false ∧
      selectPaymentRequirement accepts cfg.network = some req ∧
      guardCheck cfg req = none ∧ throwsCb cfg.onPaymentRequired = false := by
  obtain ⟨st0, bp, now, rst, sh⟩ := env
  unfold try402 at h
  cases bp with
  | error m => simp [countFetch] at h
  | ok body =>
    obtain ⟨ver, acc⟩ := body
    cases ver with
    | none => simp [countFetch] at h
    | some v =>
      cases acc with
      | none => simp [countFetch] at h
      | some accepts =>
        simp only [] at h
        by_cases hval : (v == 0 || accepts.isEmpty) = true
        · rw [if_pos (by simpa using hval)] at h
          simp [countFetch] at h
        · rw [if_neg (by simpa using hval)] at h
          cases hsel : selectPaymentRequirement accepts cfg.network with
          | none => rw [hsel] at h; simp [countFetch] at h
          | some req =>
            rw [hsel] at h
            simp only [] at h
            cases hg : guardCheck cfg req with
            | some e =>
              rw [hg] at h
              cases hE : cfg.onPaymentError <;> rw [hE] at h <;>
                simp [callCb, countFetch, List.countP_cons] at h
            | none =>
              rw [hg] at h
              simp only [] at h
              have hc := afterGuard_fetch_count cfg
                ⟨st0, Except.ok ⟨some v, some accepts⟩, now, rst, sh⟩ v accepts req
              rw [h] at hc
              by_cases ht : throwsCb cfg.onPaymentRequired = true
              · rw [if_pos ht] at hc; cases hc
              · exact ⟨v, accepts, req, rfl, by simpa using hval, hsel, hg,
                  by simpa using ht⟩

theorem try402_no_sign (cfg : DexfraFetchConfig) (env : FetchEnv) (d : PaymentData) :
    Event.signAttempt d ∉ (try402 cfg env).2 := by
  intro h
  obtain ⟨st0, bp, now, rst, sh⟩ := env
  unfold try402 at h
  cases bp with
  | error m => simp at h
  | ok body =>
    obtain ⟨ver, acc⟩ := body
    cases ver with
    | none => simp at h
    | some v =>
      cases acc with
      | none => simp at h
      | some accepts =>
        simp only [] at h
        by_cases hval : (v == 0 || accepts.isEmpty) = true
        · rw [if_pos (by simpa using hval)] at h
          simp at h
        · rw [if_neg (by simpa using hval)] at h
          cases hsel : selectPaymentRequirement accepts cfg.network with
          | none => rw [hsel] at h; simp at h
          | some req =>
            rw [hsel] at h
            simp only [] at h
            cases hg : guardCheck cfg req with
            | some e =>
              rw [hg] at h
              cases hE : cfg.onPaymentError <;> rw [hE] at h <;> simp [callCb] at h
            | none =>
              rw [hg] at h
              exact afterGuard_no_sign cfg ⟨st0, Except.ok ⟨some v, some accepts⟩, now, rst, sh⟩ v accepts req d h

theorem try402_success_mem (cfg : DexfraFetchConfig) (env : FetchEnv) (tx : String)
    (h : Event.cbSuccess tx ∈ (try402 cfg env).2) :
    ∃ s, parseSettlementResponse env.settlementHeader = some s ∧ tx = s.transactionId := by
  obtain ⟨st0, bp, now, rst, sh⟩ := env
  unfold try402 at h
  cases bp with
  | error m => simp at h
  | ok body =>
    obtain ⟨ver, acc⟩ := body
    cases ver with
    | none => simp at h
    | some v =>
      cases acc with
      | none => simp at h
      | some accepts =>
        simp only [] at h
        by_cases hval : (v == 0 || accepts.isEmpty) = true
        · rw [if_pos (by simpa using hval)] at h
          simp at h
        · rw [if_neg (by simpa using hval)] at h
          cases hsel : selectPaymentRequirement accepts cfg.network with
          | none => rw [hsel] at h; simp at h
          | some req =>
            rw [hsel] at h
            simp only [] at h
            cases hg : guardCheck cfg req with
            | some e =>
              rw [hg] at h
              cases hE : cfg.onPaymentError <;> rw [hE] at h <;> simp [callCb] at h
            | none =>
              rw [hg] at h
              exact afterGuard_success_mem cfg ⟨st0, Except.ok ⟨some v, some accepts⟩, now, rst, sh⟩ v accepts req tx h

theorem try402_build_mem (cfg : DexfraFetchConfig) (env : FetchEnv) (d : PaymentData)
    (h : Event.buildHeader d ∈ (try402 cfg env).2) :
    ∃ v accepts req, env.bodyParse = Except.ok ⟨some v, some accepts⟩ ∧
      (v == 0 || accepts.isEmpty) = false ∧
      selectPaymentRequirement accepts cfg.network = some req ∧
      guardCheck cfg req = none ∧ d = mkPaymentData v req env.now := by
  obtain ⟨st0, bp, now, rst, sh⟩ := env
  unfold try402 at h
  cases bp with
  | error m => simp at h
  | ok body =>
    obtain ⟨ver, acc⟩ := body
    cases ver with
    | none => simp at h
    | some v =>
      cases acc with
      | none => simp at h
      | some accepts =>
        simp only [] at h
        by_cases hval : (v == 0 || accepts.isEmpty) = true
        · rw [if_pos (by simpa using hval)] at h
          simp at h
        · rw [if_neg (by simpa using hval)] at h
          cases hsel : selectPaymentRequirement accepts cfg.network with
          | none => rw [hsel] at h; simp at h
          | some req =>
            rw [hsel] at h
            simp only [] at h
            cases hg : guardCheck cfg req with
            | some e =>
              rw [hg] at h
              cases hE : cfg.onPaymentError <;> rw [hE] at h <;> simp [callCb] at h
            | none =>
              rw [hg] at h
              exact ⟨v, accepts, req, rfl, by simpa using hval, hsel, hg,
                afterGuard_build_mem cfg ⟨st0, Except.ok ⟨some v, some accepts⟩, now, rst, sh⟩ v accepts req d h⟩

theorem try402_errCb (cfg : DexfraFetchConfig) (env : FetchEnv)
    (hE : cfg.onPaymentError = CbBehavior.returns) (r : Except JsError Nat) (evs : List Event)
    (h : try402 cfg env = (r, evs)) :
    (∀ e, r = Except.error (JsError.dexfra e) →
      countErrorCb evs = actualErrCbCount e ∧
        (actualErrCbCount e = 1 → Event.cbError e ∈ evs)) ∧
    countErrorCb evs ≤ 1 ∧
    ((∀ e, r ≠ Except.error (JsError.dexfra e)) → countErrorCb evs = 0) := by
  obtain ⟨st0, bp, now, rst, sh⟩ := env
  unfold try402 at h
  cases bp with
  | error m =>
    simp only [] at h
    injection h with h1 h2
    subst h1; subst h2
    simp [countErrorCb]
  | ok body =>
    obtain ⟨ver, acc⟩ := body
    cases ver with
    | none =>
      simp only [] at h
      injection h with h1 h2
      subst h1; subst h2
      simp [countErrorCb, invalid402Error, actualErrCbCount]
    | some v =>
      cases acc with
      | none =>
        simp only [] at h
        injection h with h1 h2
        subst h1; subst h2
        simp [countErrorCb, invalid402Error, actualErrCbCount]
      | some accepts =>
        simp only [] at h
        by_cases hval : (v == 0 || accepts.isEmpty) = true
        · rw [if_pos (by simpa using hval)] at h
          injection h with h1 h2
          subst h1; subst h2
          simp [countErrorCb, invalid402Error, actualErrCbCount]
        · rw [if_neg (by simpa using hval)] at h
          cases hsel : selectPaymentRequirement accepts cfg.network with
          | none =>
            rw [hsel] at h
            injection h with h1 h2
            subst h1; subst h2
            simp [countErrorCb]
          | some req =>
            rw [hsel] at h
            simp only [] at h
            cases hg : guardCheck cfg req with
            | some e =>
              rw [hg, hE] at h
              simp only [callCb] at h
              injection h with h1 h2
              subst h1; subst h2
              obtain ⟨c, -, -, he⟩ := guardCheck_shape cfg req e hg
              subst he
              simp [countErrorCb, actualErrCbCount, List.countP_cons]
            | none =>
              rw [hg] at h
              simp only [] at h
              constructor
              · intro e' he'
                subst he'
                have hshape := afterGuard_dexfra_err cfg
                  ⟨st0, Except.ok ⟨some v, some accepts⟩, now, rst, sh⟩ v accepts req e' evs h
                have hcnt := afterGuard_errCb cfg
                  ⟨st0, Except.ok ⟨some v, some accepts⟩, now, rst, sh⟩ v accepts req
                rw [h] at hcnt
                subst hshape
                exact ⟨by simpa using hcnt, by simp [actualErrCbCount]⟩
              · have hcnt := afterGuard_errCb cfg
                  ⟨st0, Except.ok ⟨some v, some accepts⟩, now, rst, sh⟩ v accepts req
                rw [h] at hcnt
                simp only [] at hcnt
                exact ⟨by omega, fun _ => hcnt⟩

theorem dexfraFetch_fetch_count (cfg : DexfraFetchConfig) (env : FetchEnv) :
    countFetch (dexfraFetch cfg env).2 =
      if env.initialStatus == 402 then 1 + countFetch (try402 cfg env).2 else 1 := by
  unfold dexfraFetch
  split
  · cases htry : try402 cfg env with
    | mk r evs =>
      cases r with
      | ok st =>
        simp_all [countFetch, List.countP_cons]
        omega
      | error je =>
        cases je with
        | dexfra e =>
          simp_all [countFetch, List.countP_cons]
          omega
        | other m =>
          cases hE : cfg.onPaymentError <;>
            (simp_all [callCb, countFetch, List.countP_cons, List.countP_append]; omega)
  · simp_all [countFetch, List.countP_cons]

theorem dexfraFetch_dexfra_result (cfg : DexfraFetchConfig) (env : FetchEnv)
    (e : DexfraError) (evs : List Event)
    (h402 : env.initialStatus = 402)
    (h : try402 cfg env = (Except.error (JsError.dexfra e), evs)) :
    dexfraFetch cfg env = (FetchResult.failure (JsError.dexfra e), Event.fetchCall :: evs) := by
  unfold dexfraFetch
  rw [if_pos (by simp [h402]), h]

theorem dexfraFetch_ok_result (cfg : DexfraFetchConfig) (env : FetchEnv)
    (st : Nat) (evs : List Event)
    (h402 : env.initialStatus = 402)
    (h : try402 cfg env = (Except.ok st, evs)) :
    dexfraFetch cfg env = (FetchResult.paid st, Event.fetchCall :: evs) := by
  unfold dexfraFetch
  rw [if_pos (by simp [h402]), h]

theorem dexfraFetch_other_result (cfg : DexfraFetchConfig) (env : FetchEnv)
    (m : String) (evs : List Event)
    (h402 : env.initialStatus = 402)
    (h : try402 cfg env = (Except.error (JsError.other m), evs))
    (hE : throwsCb cfg.onPaymentError = false) :
    dexfraFetch cfg env =
      (FetchResult.failure (JsError.dexfra (DexfraError.generic
          ("Payment processing failed: " ++ m) "PAYMENT_PROCESSING_FAILED")),
       Event.fetchCall ::
         (evs ++ (callCb cfg.onPaymentError (Event.cbError (DexfraError.generic
           ("Payment processing failed: " ++ m) "PAYMENT_PROCESSING_FAILED"))).1)) := by
  unfold dexfraFetch
  rw [if_pos (by simp [h402]), h]
  cases hEb : cfg.onPaymentError <;> simp_all [callCb, throwsCb]

theorem dexfraFetch_other_result_throws (cfg : DexfraFetchConfig) (env : FetchEnv)
    (m m2 : String) (evs : List Event)
    (h402 : env.initialStatus = 402)
    (h : try402 cfg env = (Except.error (JsError.other m), evs))
    (hE : cfg.onPaymentError = CbBehavior.throws m2) :
    (dexfraFetch cfg env).1 = FetchResult.failure (JsError.other m2) := by
  unfold dexfraFetch
  rw [if_pos (by simp [h402]), h, hE]
  simp [callCb]

theorem dexfraFetch_build_mem (cfg : DexfraFetchConfig) (env : FetchEnv) (d : PaymentData)
    (h : Event.buildHeader d ∈ (dexfraFetch cfg env).2) :
    env.initialStatus = 402 ∧ Event.buildHeader d ∈ (try402 cfg env).2 := by
  unfold dexfraFetch at h
  split at h
  · cases htry : try402 cfg env with
    | mk r evs =>
      rw [htry] at h
      cases r with
      | ok st =>
        simp only [List.mem_cons] at h
        exact ⟨by simp_all, by simp_all⟩
      | error je =>
        cases je with
        | dexfra e =>
          simp only [List.mem_cons] at h
          exact ⟨by simp_all, by simp_all⟩
        | other m =>
          refine ⟨by simp_all, ?_⟩
          cases hE : cfg.onPaymentError <;>
            simp_all [callCb]
  · simp at h

theorem dexfraFetch_no_sign (cfg : DexfraFetchConfig) (env : FetchEnv) (d : PaymentData) :
    Event.signAttempt d ∉ (dexfraFetch cfg env).2 := by
  intro h
  have hns := try402_no_sign cfg env d
  unfold dexfraFetch at h
  split at h
  · cases htry : try402 cfg env with
    | mk r evs =>
      rw [htry] at h
      rw [htry] at hns
      simp only [] at hns
      cases r with
      | ok st => simp_all
      | error je =>
        cases je with
        | dexfra e => simp_all
        | other m =>
          cases hE : cfg.onPaymentError <;> simp_all [callCb]
  · simp at h

theorem dexfraFetch_success_mem (cfg : DexfraFetchConfig) (env : FetchEnv) (tx : String)
    (h : Event.cbSuccess tx ∈ (dexfraFetch cfg env).2) :
    ∃ s, parseSettlementResponse env.settlementHeader = some s ∧ tx = s.transactionId := by
  have hmem := try402_success_mem cfg env tx
  unfold dexfraFetch at h
  split at h
  · cases htry : try402 cfg env with
    | mk r evs =>
      rw [htry] at h
      rw [htry] at hmem
      simp only [] at hmem
      cases r with
      | ok st => exact hmem (by simp_all)
      | error je =>
        cases je with
        | dexfra e => exact hmem (by simp_all)
        | other m =>
          cases hE : cfg.onPaymentError <;>
            first
            | exact hmem (by simp_all [callCb])
            | simp_all [callCb]
  · simp at h

end Dexfra

namespace Dexfra

theorem selectedOffer_of (cfg : DexfraFetchConfig) (env : FetchEnv) (v : Nat)
    (accepts : List X402PaymentRequirement) (req : X402PaymentRequirement)
    (hbp : env.bodyParse = Except.ok ⟨some v, some accepts⟩)
    (hval : (v == 0 || accepts.isEmpty) = false)
    (hsel : selectPaymentRequirement accepts cfg.network = some req) :
    selectedOffer cfg env = some req := by
  unfold selectedOffer
  rw [hbp]
  simp only [hval, Bool.false_eq_true, if_false, hsel]

theorem selectedOffer_inv (cfg : DexfraFetchConfig) (env : FetchEnv)
    (req : X402PaymentRequirement) (h : selectedOffer cfg env = some req) :
    ∃ v accepts, env.bodyParse = Except.ok ⟨some v, some accepts⟩ ∧
      (v == 0 || accepts.isEmpty) = false ∧
      selectPaymentRequirement accepts cfg.network = some req := by
  unfold selectedOffer at h
  cases hbp : env.bodyParse with
  | error m => rw [hbp] at h; simp at h
  | ok body =>
    rw [hbp] at h
    obtain ⟨ver, acc⟩ := body
    cases ver with
    | none => simp at h
    | some v =>
      cases acc with
      | none => simp at h
      | some accepts =>
        simp only [] at h
        by_cases hval : (v == 0 || accepts.isEmpty) = true
        · rw [if_pos (by simpa using hval)] at h; simp at h
        · rw [if_neg (by simpa using hval)] at h
          exact ⟨v, accepts, rfl, by simpa using hval, h⟩

theorem challengeAccepts_of (env : FetchEnv) (v : Option Nat)
    (accepts : List X402PaymentRequirement)
    (hbp : env.bodyParse = Except.ok ⟨v, some accepts⟩) :
    challengeAccepts env = accepts := by
  unfold challengeAccepts
  rw [hbp]

theorem parseSettlement_inv (sh : Option (Except Unit X402SettlementResponse))
    (s : X402SettlementResponse) (h : parseSettlementResponse sh = some s) :
    sh = some (Except.ok s) := by
  cases sh with
  | none => simp [parseSettlementResponse] at h
  | some r =>
    cases r with
    | error u => simp [parseSettlementResponse] at h
    | ok s2 =>
      simp [parseSettlementResponse] at h
      rw [h]

theorem afterGuard_reqThrows (cfg : DexfraFetchConfig) (env : FetchEnv) (v : Nat)
    (a : List X402PaymentRequirement) (req : X402PaymentRequirement) (msg : String)
    (hreq : cfg.onPaymentRequired = CbBehavior.throws msg) :
    afterGuard cfg env v a req =
      (Except.error (JsError.other msg), [Event.cbRequired req.maxAmountRequired]) := by
  unfold afterGuard
  rw [hreq]
  simp [callCb]

theorem afterGuard_ok (cfg : DexfraFetchConfig) (env : FetchEnv) (v : Nat)
    (a : List X402PaymentRequirement) (req : X402PaymentRequirement)
    (hrne : env.retryStatus ≠ 402)
    (hcbR : throwsCb cfg.onPaymentRequired = false)
    (hset : parseSettlementResponse env.settlementHeader = none) :
    afterGuard cfg env v a req =
      (Except.ok env.retryStatus,
       (callCb cfg.onPaymentRequired (Event.cbRequired req.maxAmountRequired)).1
         ++ [Event.buildHeader (mkPaymentData v req env.now)] ++ [Event.fetchCall]) := by
  unfold afterGuard createPaymentHeader
  have hcond : (!responseOk env.retryStatus && env.retryStatus == 402) = false := by
    cases hb : (env.retryStatus == 402) with
    | true => exact absurd (by simpa using hb) hrne
    | false => simp
  cases hR : cfg.onPaymentRequired <;>
    simp_all [callCb, throwsCb, hcond, hset]

end Dexfra

namespace Dexfra

/-- Claim C8 (confirmed): over a non-empty offer list, selection returns the
first offer in list order whose network equals the preferred network under
case-insensitive comparison, and falls back to the head of the list when no
offer matches; it is total over non-empty input. -/
theorem c8_selection_first_match (requirements : List X402PaymentRequirement)
    (preferredNetwork : String) (hne : requirements ≠ []) :
    ∃ req, selectPaymentRequirement requirements preferredNetwork = some req ∧
      ((toLowerStr req.network = toLowerStr preferredNetwork ∧
        ∃ pre post, requirements = pre ++ req :: post ∧
          ∀ r ∈ pre, toLowerStr r.network ≠ toLowerStr preferredNetwork) ∨
       ((∀ r ∈ requirements, toLowerStr r.network ≠ toLowerStr preferredNetwork) ∧
        requirements.head? = some req)) := by
  unfold selectPaymentRequirement
  cases hfind : requirements.find? (fun req => toLowerStr req.network == toLowerStr preferredNetwork) with
  | some req =>
    refine ⟨req, rfl, Or.inl ?_⟩
    rw [List.find?_eq_some] at hfind
    obtain ⟨hp, pre, post, heq, hpre⟩ := hfind
    refine ⟨by simpa using hp, pre, post, heq, ?_⟩
    intro r hr
    simpa using hpre r hr
  | none =>
    rw [List.find?_eq_none] at hfind
    cases requirements with
    | nil => exact absurd rfl hne
    | cons a as =>
      refine ⟨a, rfl, Or.inr ⟨?_, rfl⟩⟩
      intro r hr
      simpa using hfind r hr

/-- Witness for C8: with offers on networks A and B and preferred network b,
the B offer is selected irrespective of list order. -/
theorem c8_selection_first_match_witness :
    selectPaymentRequirement [reqNetA, reqNetB] "b" = some reqNetB ∧
    selectPaymentRequirement [reqNetB, reqNetA] "b" = some reqNetB ∧
    (selectPaymentRequirement [reqNetA, reqNetB] "b").isSome = true := by
  refine ⟨by decide, by decide, ?_⟩
  obtain ⟨req, hsel, -⟩ := c8_selection_first_match [reqNetA, reqNetB] "b" (by decide)
  rw [hsel]
  rfl

/-- Claim C7 (confirmed): a 402 response whose body lacks x402Version or whose
accepts list is absent or empty fails with the INVALID_402_RESPONSE
DexfraError after exactly one network call, and no proof is built. -/
theorem c7_invalid_challenge (cfg : DexfraFetchConfig) (env : FetchEnv) (body : Body402)
    (h402 : env.initialStatus = 402)
    (hbody : env.bodyParse = Except.ok body)
    (hbad : body.x402Version = none ∨ body.accepts = none ∨ body.accepts = some []) :
    (dexfraFetch cfg env).1 = FetchResult.failure (JsError.dexfra (DexfraError.generic
      "Invalid 402 Payment Required response" "INVALID_402_RESPONSE")) ∧
    countFetch (dexfraFetch cfg env).2 = 1 ∧
    countBuild (dexfraFetch cfg env).2 = 0 := by
  have htry := try402_invalid cfg env body hbody hbad
  have hfr := dexfraFetch_dexfra_result cfg env invalid402Error [] h402 htry
  rw [hfr]
  refine ⟨rfl, by decide, by decide⟩

/-- Witness for C7: an empty accepts list yields InvalidChallenge after one
network call with no proof built. -/
theorem c7_invalid_challenge_witness :
    (dexfraFetch cfgCeil1 envEmptyAccepts).1 = FetchResult.failure
      (JsError.dexfra (DexfraError.generic
        "Invalid 402 Payment Required response" "INVALID_402_RESPONSE")) ∧
    countFetch (dexfraFetch cfgCeil1 envEmptyAccepts).2 = 1 ∧
    countBuild (dexfraFetch cfgCeil1 envEmptyAccepts).2 = 0 :=
  c7_invalid_challenge cfgCeil1 envEmptyAccepts ⟨some 1, some []⟩ rfl rfl (by decide)

/-- Claim C10 (confirmed): every payment record placed in a built header
carries exactly the selected offer's full maxAmountRequired as its amount and
the offer's scheme unchanged, for both the exact and the upto scheme. -/
theorem c10_amount_always_full (cfg : DexfraFetchConfig) (env : FetchEnv) (d : PaymentData)
    (h : Event.buildHeader d ∈ (dexfraFetch cfg env).2) :
    ∃ req, selectedOffer cfg env = some req ∧ d.amount = req.maxAmountRequired ∧
      d.scheme = req.scheme := by
  obtain ⟨h402, hmem⟩ := dexfraFetch_build_mem cfg env d h
  obtain ⟨v, accepts, req, hbp, hval, hsel, hguard, hd⟩ := try402_build_mem cfg env d hmem
  exact ⟨req, selectedOffer_of cfg env v accepts req hbp hval hsel,
    by rw [hd]; rfl, by rw [hd]; rfl⟩

/-- Witness for C10: an upto-scheme offer is paid at its full maxAmountRequired. -/
theorem c10_amount_always_full_witness :
    Event.buildHeader (mkPaymentData 1 reqUpto 5) ∈ (dexfraFetch cfgNoCeil envUpto).2 ∧
    ∃ req, selectedOffer cfgNoCeil envUpto = some req ∧
      (mkPaymentData 1 reqUpto 5).amount = req.maxAmountRequired ∧
      (mkPaymentData 1 reqUpto 5).scheme = req.scheme :=
  ⟨by decide, c10_amount_always_full cfgNoCeil envUpto (mkPaymentData 1 reqUpto 5) (by decide)⟩

/-- Claim C4 (code_bug): the proof build step assembles the canonical record
and base64-encodes its JSON rendering, but never invokes the wallet signing
operation: the resulting header at a concrete input is the plain encoded
record, no signing attempt appears in the trace, and the build step cannot
observe any signer failure. -/
theorem c4_placeholder_no_signing :
    createPaymentHeader 1 reqSmall 77 =
      (Except.ok (encodePaymentData (mkPaymentData 1 reqSmall 77)),
       [Event.buildHeader (mkPaymentData 1 reqSmall 77)]) ∧
    encodePaymentData (mkPaymentData 1 reqSmall 77) =
      "eyJ2ZXJzaW9uIjoxLCJuZXR3b3JrIjoic29sYW5hIiwicmVjaXBpZW50IjoicmVjaXAiLCJhbW91bnQiOiIxMDAwIiwic2NoZW1lIjoiZXhhY3QiLCJ0aW1lc3RhbXAiOjc3fQ==" ∧
    countSign (dexfraFetch cfgNoCeil envSmallRetryOk).2 = 0 ∧
    countBuild (dexfraFetch cfgNoCeil envSmallRetryOk).2 = 1 ∧
    (dexfraFetch cfgNoCeil envSmallRetryOk).1 = FetchResult.paid 200 := by
  refine ⟨rfl, by decide, by decide, by decide, by decide⟩

end Dexfra

namespace Dexfra

/-- Claim C6 (confirmed): every execution performs at most two network
round-trips, and when the paid retry happened and returned 402 again the call
fails with the PAYMENT_REQUIRED PaymentRequiredError carrying the selected
offer's amount and the challenge offers; no third request is issued. -/
theorem c6_at_most_two_roundtrips (cfg : DexfraFetchConfig) (env : FetchEnv) :
    countFetch (dexfraFetch cfg env).2 ≤ 2 ∧
    (countFetch (dexfraFetch cfg env).2 = 2 → env.retryStatus = 402 →
      ∃ req, selectedOffer cfg env = some req ∧
        (dexfraFetch cfg env).1 = FetchResult.failure (JsError.dexfra
          (DexfraError.paymentRequired "Payment was not accepted" req.maxAmountRequired
            (challengeAccepts env)))) := by
  constructor
  · rw [dexfraFetch_fetch_count]
    split
    · have := try402_fetch_le cfg env
      omega
    · omega
  · intro h2 hr
    rw [dexfraFetch_fetch_count] at h2
    by_cases h402 : (env.initialStatus == 402) = true
    · rw [if_pos h402] at h2
      have h1 : countFetch (try402 cfg env).2 = 1 := by omega
      obtain ⟨v, accepts, req, hbp, hval, hsel, hguard, hthrow⟩ := try402_fetch1_inv cfg env h1
      have hAG := try402_eq_afterGuard cfg env v accepts req hbp hval hsel hguard
      have hres := afterGuard_retry402 cfg env v accepts req hr hthrow
      cases hag : afterGuard cfg env v accepts req with
      | mk r evs =>
        rw [hag] at hres
        simp only [] at hres
        subst hres
        have htry : try402 cfg env = (Except.error (JsError.dexfra
            (DexfraError.paymentRequired "Payment was not accepted" req.maxAmountRequired accepts)),
            evs) := by rw [hAG, hag]
        have hfr := dexfraFetch_dexfra_result cfg env _ evs (by simpa using h402) htry
        refine ⟨req, selectedOffer_of cfg env v accepts req hbp hval hsel, ?_⟩
        rw [hfr, challengeAccepts_of env (some v) accepts hbp]
    · rw [if_neg h402] at h2
      omega

/-- Witness for C6: a second 402 on the paid retry yields PaymentRejected with
exactly two round-trips. -/
theorem c6_at_most_two_roundtrips_witness :
    countFetch (dexfraFetch cfgNoCeil envSmallRetry402).2 ≤ 2 ∧
    ∃ req, selectedOffer cfgNoCeil envSmallRetry402 = some req ∧
      (dexfraFetch cfgNoCeil envSmallRetry402).1 = FetchResult.failure (JsError.dexfra
        (DexfraError.paymentRequired "Payment was not accepted" req.maxAmountRequired
          (challengeAccepts envSmallRetry402))) :=
  ⟨(c6_at_most_two_roundtrips cfgNoCeil envSmallRetry402).1,
   (c6_at_most_two_roundtrips cfgNoCeil envSmallRetry402).2 (by decide) rfl⟩

/-- Claim C9 (confirmed): the settlement parser returns none, not an error, on
an absent or undecodable header; in that case a non-402 paid retry still
succeeds with onPaymentSuccess not invoked; and onPaymentSuccess is invoked
only with the transactionId of a successfully decoded settlement record. -/
theorem c9_settlement_advisory (cfg : DexfraFetchConfig) (env : FetchEnv) :
    parseSettlementResponse none = none ∧
    parseSettlementResponse (some (Except.error ())) = none ∧
    (∀ s, parseSettlementResponse (some (Except.ok s)) = some s) ∧
    (countFetch (dexfraFetch cfg env).2 = 2 → env.retryStatus ≠ 402 →
      parseSettlementResponse env.settlementHeader = none →
      (dexfraFetch cfg env).1 = FetchResult.paid env.retryStatus ∧
      countSuccessCb (dexfraFetch cfg env).2 = 0) ∧
    (∀ tx, Event.cbSuccess tx ∈ (dexfraFetch cfg env).2 →
      ∃ s, env.settlementHeader = some (Except.ok s) ∧ tx = s.transactionId) := by
  refine ⟨rfl, rfl, fun s => rfl, ?_, ?_⟩
  · intro h2 hrne hset
    rw [dexfraFetch_fetch_count] at h2
    by_cases h402 : (env.initialStatus == 402) = true
    · rw [if_pos h402] at h2
      have h1 : countFetch (try402 cfg env).2 = 1 := by omega
      obtain ⟨v, accepts, req, hbp, hval, hsel, hguard, hthrow⟩ := try402_fetch1_inv cfg env h1
      have hAG := try402_eq_afterGuard cfg env v accepts req hbp hval hsel hguard
      have hag := afterGuard_ok cfg env v accepts req hrne hthrow hset
      have htry : try402 cfg env = (Except.ok env.retryStatus,
          (callCb cfg.onPaymentRequired (Event.cbRequired req.maxAmountRequired)).1
            ++ [Event.buildHeader (mkPaymentData v req env.now)] ++ [Event.fetchCall]) := by
        rw [hAG, hag]
      have hfr := dexfraFetch_ok_result cfg env env.retryStatus _ (by simpa using h402) htry
      rw [hfr]
      refine ⟨rfl, ?_⟩
      cases hR : cfg.onPaymentRequired <;>
        simp [callCb, countSuccessCb, List.countP_cons, List.countP_append]
    · rw [if_neg h402] at h2
      omega
  · intro tx h
    obtain ⟨s, hps, htx⟩ := dexfraFetch_success_mem cfg env tx h
    exact ⟨s, parseSettlement_inv env.settlementHeader s hps, htx⟩

/-- Witness for C9: an undecodable settlement header still yields the
successful retry response with onPaymentSuccess not invoked. -/
theorem c9_settlement_advisory_witness :
    (dexfraFetch cfgNoCeil envBadSettle).1 = FetchResult.paid envBadSettle.retryStatus ∧
    countSuccessCb (dexfraFetch cfgNoCeil envBadSettle).2 = 0 :=
  (c9_settlement_advisory cfgNoCeil envBadSettle).2.2.2.1 (by decide) (by decide) rfl

end Dexfra

namespace Dexfra

/-- Counterexample for C1: with a ceiling-exceeding offer and an onPaymentError
callback that itself throws, the call does not raise the MaxAmountExceededError;
the callback exception propagates instead. -/
theorem c1_counterexample :
    selectedOffer cfgCeil1ThrowErr env2M = some req2M ∧
    (dexfraFetch cfgCeil1ThrowErr env2M).1 = FetchResult.failure (JsError.other "cb boom") ∧
    (∀ e : DexfraError,
      (dexfraFetch cfgCeil1ThrowErr env2M).1 ≠ FetchResult.failure (JsError.dexfra e)) := by
  have hval : (dexfraFetch cfgCeil1ThrowErr env2M).1 = FetchResult.failure (JsError.other "cb boom") := by
    simp [dexfraFetch, try402, guardCheck, cfgCeil1ThrowErr, env2M, req2M, parseUSDC_one,
      callCb, selectPaymentRequirement]
  refine ⟨by decide, hval, ?_⟩
  intro e h
  rw [hval] at h
  simp at h

/-- Claim C1 (corrected): the ceiling check completes and passes strictly
before any proof construction on every path and no signing ever occurs; when
the selected offer exceeds the configured ceiling no proof is built, the error
is the MaxAmountExceededError, and it is the propagated failure provided the
onPaymentError callback does not itself throw; a throwing onPaymentError
instead lets its own exception escape raw (unwrapped), as the second callback
throw inside the catch preempts the wrapped rethrow. -/
theorem c1_ceiling_guard (cfg : DexfraFetchConfig) (env : FetchEnv) :
    (∀ d, Event.buildHeader d ∈ (dexfraFetch cfg env).2 →
      ∃ req, selectedOffer cfg env = some req ∧ guardCheck cfg req = none) ∧
    countSign (dexfraFetch cfg env).2 = 0 ∧
    (∀ req e, env.initialStatus = 402 → selectedOffer cfg env = some req →
      guardCheck cfg req = some e →
      countBuild (dexfraFetch cfg env).2 = 0 ∧
      (∃ m r mx, e = DexfraError.maxAmountExceeded m r mx) ∧
      (throwsCb cfg.onPaymentError = false →
        (dexfraFetch cfg env).1 = FetchResult.failure (JsError.dexfra e)) ∧
      (∀ m2, cfg.onPaymentError = CbBehavior.throws m2 →
        (dexfraFetch cfg env).1 = FetchResult.failure (JsError.other m2))) := by
  refine ⟨?_, ?_, ?_⟩
  · intro d h
    obtain ⟨h402, hmem⟩ := dexfraFetch_build_mem cfg env d h
    obtain ⟨v, accepts, req, hbp, hval, hsel, hguard, hd⟩ := try402_build_mem cfg env d hmem
    exact ⟨req, selectedOffer_of cfg env v accepts req hbp hval hsel, hguard⟩
  · rw [countSign, List.countP_eq_zero]
    intro a ha
    cases a with
    | signAttempt d => exact absurd ha (dexfraFetch_no_sign cfg env d)
    | fetchCall => simp
    | cbRequired x => simp
    | cbSuccess x => simp
    | cbError x => simp
    | buildHeader x => simp
  · intro req e h402 hsel hg
    obtain ⟨v, accepts, hbp, hval, hselp⟩ := selectedOffer_inv cfg env req hsel
    have htryF := try402_guardfail cfg env v accepts req e hbp hval hselp hg
    refine ⟨?_, ?_, ?_, ?_⟩
    · rw [countBuild, List.countP_eq_zero]
      intro a ha
      cases a with
      | buildHeader d =>
        exfalso
        obtain ⟨-, hmem⟩ := dexfraFetch_build_mem cfg env d ha
        rw [htryF] at hmem
        cases hE : cfg.onPaymentError <;> rw [hE] at hmem <;> simp [callCb] at hmem
      | fetchCall => simp
      | cbRequired x => simp
      | cbSuccess x => simp
      | cbError x => simp
      | signAttempt x => simp
    · obtain ⟨c, -, -, he⟩ := guardCheck_shape cfg req e hg
      exact ⟨_, _, _, he⟩
    · intro hnt
      cases hE : cfg.onPaymentError with
      | throws m => rw [hE] at hnt; simp [throwsCb] at hnt
      | absent =>
        rw [hE] at htryF
        simp only [callCb] at htryF
        have hfr := dexfraFetch_dexfra_result cfg env e [] h402 htryF
        rw [hfr]
      | returns =>
        rw [hE] at htryF
        simp only [callCb] at htryF
        have hfr := dexfraFetch_dexfra_result cfg env e [Event.cbError e] h402 htryF
        rw [hfr]
    · intro m2 hE
      rw [hE] at htryF
      simp only [callCb] at htryF
      exact dexfraFetch_other_result_throws cfg env m2 m2 [Event.cbError e] h402 htryF hE

/-- Witness for C1: ceiling 1.0 against a 2000000 base-unit offer raises the
MaxAmountExceededError with no proof built and no signing. -/
theorem c1_ceiling_guard_witness :
    selectedOffer cfgCeil1 env2M = some req2M ∧
    guardCheck cfgCeil1 req2M = some e2M ∧
    countBuild (dexfraFetch cfgCeil1 env2M).2 = 0 ∧
    countSign (dexfraFetch cfgCeil1 env2M).2 = 0 ∧
    (dexfraFetch cfgCeil1 env2M).1 = FetchResult.failure (JsError.dexfra e2M) := by
  have hsel : selectedOffer cfgCeil1 env2M = some req2M := by decide
  have hg : guardCheck cfgCeil1 req2M = some e2M := by
    simp only [guardCheck, cfgCeil1, req2M, parseUSDC_one]
    decide
  obtain ⟨-, hsign, h3⟩ := c1_ceiling_guard cfgCeil1 env2M
  obtain ⟨hnb, -, hres, -⟩ := h3 req2M e2M rfl hsel hg
  exact ⟨hsel, hg, hnb, hsign, hres (by decide)⟩

end Dexfra

namespace Dexfra

set_option maxRecDepth 16000 in
/-- Counterexample for C2: the conversion is the floor of the float64-rounded
product, not the exact value c * 10^6: for the double nearest 0.000249 the
code yields 248 base units while c * 10^6 is not that integer (it is just
below 249); and for the double nearest 0.000001 the rounded product is exactly
1.0 although the exact product lies below 1, so even the floor of the exact
product (0) differs from the computed bound (1). -/
theorem c2_counterexample :
    ((parseUSDCAmount ceil249 : ℤ) : ℚ) ≠ ceil249 * 10 ^ USDC_DECIMALS ∧
    parseUSDCAmount ceil249 = 248 ∧
    qfloor (fl64 (mkRat 1 (10 ^ 6)) * 10 ^ 6) = 0 ∧
    parseUSDCAmount (fl64 (mkRat 1 (10 ^ 6))) = 1 := by
  exact ⟨by decide, by decide, by decide, by decide⟩

/-- Claim C2 (corrected): the guard converts the ceiling by flooring the
binary64-rounded product of the ceiling with 10^6; whenever that rounded
product is an integer n the conversion yields exactly n. It compares
arbitrary-precision integers and fails with the MaxAmountExceededError
carrying required and max exactly when required exceeds max; for ceiling 1.0,
whose product 10^6 is exact in binary64, the 2000000 offer yields the
documented error with no proof built and no signing. -/
theorem c2_guard_arithmetic :
    (∀ (c : ℚ) (n : ℤ), fl64 (c * 10 ^ USDC_DECIMALS) = ((n : ℤ) : ℚ) →
      parseUSDCAmount c = n) ∧
    (∀ cfg req (c : ℚ), cfg.maxAmount = some c →
      (guardCheck cfg req = none ↔ (req.maxAmountRequired : ℤ) ≤ parseUSDCAmount c) ∧
      (∀ e, guardCheck cfg req = some e →
        e = DexfraError.maxAmountExceeded
          ("Payment amount " ++ toString req.maxAmountRequired
            ++ " exceeds max amount " ++ toString (parseUSDCAmount c))
          (toString req.maxAmountRequired) (toString (parseUSDCAmount c)) ∧
        (req.maxAmountRequired : ℤ) > parseUSDCAmount c)) ∧
    (parseUSDCAmount 1 = 1000000 ∧
      guardCheck cfgCeil1 req2M = some e2M ∧
      (dexfraFetch cfgCeil1 env2M).1 = FetchResult.failure (JsError.dexfra e2M) ∧
      countBuild (dexfraFetch cfgCeil1 env2M).2 = 0 ∧
      countSign (dexfraFetch cfgCeil1 env2M).2 = 0) := by
  refine ⟨?_, ?_, ?_⟩
  · intro c n hn
    unfold parseUSDCAmount
    rw [hn]
    exact qfloor_intCast n
  · intro cfg req c hm
    unfold guardCheck
    rw [hm]
    simp only []
    constructor
    · by_cases hgt : (req.maxAmountRequired : ℤ) > parseUSDCAmount c
      · rw [if_pos hgt]
        constructor
        · intro h; simp at h
        · intro h; omega
      · rw [if_neg hgt]
        simp only [eq_self_iff_true, true_iff]
        omega
    · intro e he
      by_cases hgt : (req.maxAmountRequired : ℤ) > parseUSDCAmount c
      · rw [if_pos hgt] at he
        injection he with h1
        exact ⟨h1.symm, hgt⟩
      · rw [if_neg hgt] at he
        cases he
  · have hg : guardCheck cfgCeil1 req2M = some e2M := by
      simp only [guardCheck, cfgCeil1, req2M, parseUSDC_one]
      decide
    have hda : dexfraFetch cfgCeil1 env2M =
        (FetchResult.failure (JsError.dexfra e2M), [Event.fetchCall, Event.cbError e2M]) := by
      simp [dexfraFetch, try402, guardCheck, cfgCeil1, env2M, req2M, parseUSDC_one, callCb,
        selectPaymentRequirement, e2M]
      refine ⟨by decide, by decide, by decide⟩
    rw [hda]
    exact ⟨parseUSDC_one, hg, rfl, by decide, by decide⟩

/-- Witness for C2: the ceiling 1.0 has an exactly representable product, so
the conversion is exact, and the guard passes for an amount within the
ceiling. -/
theorem c2_guard_arithmetic_witness :
    fl64 ((1 : ℚ) * 10 ^ USDC_DECIMALS) = ((1000000 : ℤ) : ℚ) ∧
    parseUSDCAmount 1 = 1000000 ∧
    cfgCeil1.maxAmount = some 1 ∧
    (guardCheck cfgCeil1 reqSmall = none ↔
      (reqSmall.maxAmountRequired : ℤ) ≤ parseUSDCAmount 1) :=
  ⟨by decide, c2_guard_arithmetic.1 1 1000000 (by decide), rfl,
   (c2_guard_arithmetic.2.1 cfgCeil1 reqSmall 1 rfl).1⟩

end Dexfra

namespace Dexfra

/-- Counterexample for C3: an InvalidChallenge error propagates with zero
onPaymentError invocations even though the callback is provided, because the
catch block rethrows DexfraError instances without notifying. -/
theorem c3_counterexample :
    cfgCeil1.onPaymentError = CbBehavior.returns ∧
    (dexfraFetch cfgCeil1 envNoVersion).1 = FetchResult.failure (JsError.dexfra invalid402Error) ∧
    countErrorCb (dexfraFetch cfgCeil1 envNoVersion).2 = 0 := by
  refine ⟨rfl, by decide, by decide⟩

/-- Claim C3 (corrected): with a provided, non-throwing onPaymentError, the
callback fires exactly once, with the propagated error, for the ceiling error
and for wrapped non-DexfraError exceptions, and zero times for the other
DexfraError failures (InvalidChallenge, PaymentRejected), which are rethrown
unnotified; no foreign error escapes unwrapped and successful calls fire it
zero times. -/
theorem c3_error_callback (cfg : DexfraFetchConfig) (env : FetchEnv)
    (hE : cfg.onPaymentError = CbBehavior.returns) :
    errCbBookkeeping (dexfraFetch cfg env) := by
  unfold dexfraFetch
  split
  · cases htry : try402 cfg env with
    | mk r evs =>
      obtain ⟨h1, hle, h0⟩ := try402_errCb cfg env hE r evs htry
      cases r with
      | ok st =>
        have hz := h0 (by intro e; simp)
        simp [errCbBookkeeping, countErrorCb, List.countP_cons] at hz ⊢
        exact hz
      | error je =>
        cases je with
        | dexfra e =>
          have h1e := h1 e rfl
          simp only [errCbBookkeeping]
          constructor
          · have : countErrorCb (Event.fetchCall :: evs) = countErrorCb evs := by
              simp [countErrorCb, List.countP_cons]
            rw [this, h1e.1]
          · intro hone
            exact List.mem_cons_of_mem _ (h1e.2 hone)
        | other m =>
          rw [hE]
          simp only [callCb]
          have hz := h0 (by intro e; simp)
          simp only [errCbBookkeeping]
          constructor
          · simp [countErrorCb, List.countP_cons, List.countP_append, actualErrCbCount]
            simp [countErrorCb] at hz
            exact hz
          · intro hone
            simp
  · simp [errCbBookkeeping, countErrorCb]

/-- Witness for C3: the ceiling error fires the provided onPaymentError
exactly once before propagating. -/
theorem c3_error_callback_witness :
    cfgCeil1.onPaymentError = CbBehavior.returns ∧
    errCbBookkeeping (dexfraFetch cfgCeil1 env2M) :=
  ⟨rfl, c3_error_callback cfgCeil1 env2M rfl⟩

/-- Counterexample for C5: a throwing onPaymentRequired aborts the call: the
exception is wrapped and propagated, only one network call is made, while the
identical configuration with a well-behaved callback reaches the paid retry
and succeeds. -/
theorem c5_counterexample :
    (dexfraFetch cfgThrowReq envSmallRetryOk).1 = FetchResult.failure (JsError.dexfra
      (DexfraError.generic "Payment processing failed: boom" "PAYMENT_PROCESSING_FAILED")) ∧
    countFetch (dexfraFetch cfgThrowReq envSmallRetryOk).2 = 1 ∧
    countBuild (dexfraFetch cfgThrowReq envSmallRetryOk).2 = 0 ∧
    (dexfraFetch cfgCeil1 envSmallRetryOk).1 = FetchResult.paid 200 ∧
    countFetch (dexfraFetch cfgCeil1 envSmallRetryOk).2 = 2 := by
  have h1 : dexfraFetch cfgThrowReq envSmallRetryOk =
      (FetchResult.failure (JsError.dexfra
        (DexfraError.generic "Payment processing failed: boom" "PAYMENT_PROCESSING_FAILED")),
       [Event.fetchCall, Event.cbRequired 1000,
        Event.cbError (DexfraError.generic "Payment processing failed: boom"
          "PAYMENT_PROCESSING_FAILED")]) := by
    simp [dexfraFetch, try402, afterGuard, guardCheck, cfgThrowReq, envSmallRetryOk, reqSmall,
      parseUSDC_one, callCb, selectPaymentRequirement]
  have h2 : dexfraFetch cfgCeil1 envSmallRetryOk =
      (FetchResult.paid 200,
       [Event.fetchCall, Event.cbRequired 1000,
        Event.buildHeader (mkPaymentData 1 reqSmall 77), Event.fetchCall]) := by
    simp [dexfraFetch, try402, afterGuard, createPaymentHeader, guardCheck, cfgCeil1,
      envSmallRetryOk, reqSmall, parseUSDC_one, callCb, selectPaymentRequirement,
      parseSettlementResponse, responseOk, mkPaymentData]
  rw [h1, h2]
  refine ⟨rfl, by decide, by decide, rfl, by decide⟩

/-- Claim C5 (corrected): when onPaymentRequired throws on the 402 path, the
call is aborted: the exception is wrapped as PAYMENT_PROCESSING_FAILED,
onPaymentError is notified of the wrapped error, the paid retry never happens
and no proof is built. -/
theorem c5_throwing_callback_aborts (cfg : DexfraFetchConfig) (env : FetchEnv)
    (req : X402PaymentRequirement) (msg : String)
    (h402 : env.initialStatus = 402)
    (hsel : selectedOffer cfg env = some req)
    (hguard : guardCheck cfg req = none)
    (hreq : cfg.onPaymentRequired = CbBehavior.throws msg)
    (herr : cfg.onPaymentError = CbBehavior.returns) :
    (dexfraFetch cfg env).1 = FetchResult.failure (JsError.dexfra (DexfraError.generic
      ("Payment processing failed: " ++ msg) "PAYMENT_PROCESSING_FAILED")) ∧
    countFetch (dexfraFetch cfg env).2 = 1 ∧
    countBuild (dexfraFetch cfg env).2 = 0 ∧
    Event.cbRequired req.maxAmountRequired ∈ (dexfraFetch cfg env).2 ∧
    Event.cbError (DexfraError.generic ("Payment processing failed: " ++ msg)
      "PAYMENT_PROCESSING_FAILED") ∈ (dexfraFetch cfg env).2 := by
  obtain ⟨v, accepts, hbp, hval, hselp⟩ := selectedOffer_inv cfg env req hsel
  have htry : try402 cfg env =
      (Except.error (JsError.other msg), [Event.cbRequired req.maxAmountRequired]) := by
    rw [try402_eq_afterGuard cfg env v accepts req hbp hval hselp hguard]
    exact afterGuard_reqThrows cfg env v accepts req msg hreq
  have hfr := dexfraFetch_other_result cfg env msg _ h402 htry (by rw [herr]; rfl)
  rw [herr] at hfr
  simp only [callCb] at hfr
  rw [hfr]
  refine ⟨rfl, by simp [countFetch, List.countP_cons, List.countP_append],
    by simp [countBuild, List.countP_cons, List.countP_append], by simp, by simp⟩

/-- Witness for C5: the throwing-callback abort at a concrete configuration. -/
theorem c5_throwing_callback_aborts_witness :
    (dexfraFetch cfgThrowReq envSmallRetryOk).1 =
      FetchResult.failure (JsError.dexfra (DexfraError.generic
        ("Payment processing failed: " ++ "boom") "PAYMENT_PROCESSING_FAILED")) ∧
    countFetch (dexfraFetch cfgThrowReq envSmallRetryOk).2 = 1 ∧
    countBuild (dexfraFetch cfgThrowReq envSmallRetryOk).2 = 0 := by
  have h := c5_throwing_callback_aborts cfgThrowReq envSmallRetryOk reqSmall "boom" rfl
    (by decide)
    (by simp only [guardCheck, cfgThrowReq, reqSmall, parseUSDC_one]; decide)
    rfl rfl
  exact ⟨h.1, h.2.1, h.2.2.1⟩

end Dexfra
